import Mathlib

/-!
Verification of the financial-statement extraction pipeline (src/main.py).

The pipeline is embedded shallowly: each Python function becomes a Lean
function on `String` / `List Char`, faithful to the source:
  - `extract_text_from_pdf`  (page-capped text concatenation),
  - `get_income_statement_lines` (candidate line filter),
  - `extract_numbers`        (regex-based numeric token scan + cleanup),
  - `normalize_label`        (priority-ordered label matching),
  - `extract_rows` / `extract_result` / `to_csv` (orchestrator + CSV).
PDF byte decoding itself lives in the external pdfplumber library, so it is
modelled abstractly from the spec as a fallible decode step.
-/

namespace FinExtract

/-! ### Basic character and string machinery -/

/-- Python `str.strip()` whitespace set (ASCII part). -/
def isPySpace (c : Char) : Bool :=
  c = ' ' || c = '\t' || c = '\n' || c = '\r' || c = '\x0b' || c = '\x0c'

/-- `line.strip()`: drop leading and trailing whitespace. -/
def trimChars (l : List Char) : List Char :=
  ((l.dropWhile isPySpace).reverse.dropWhile isPySpace).reverse

/-- `p` is a leading segment of `s` (character-by-character). -/
def startsList : List Char → List Char → Bool
  | [], _ => true
  | _ :: _, [] => false
  | a :: ps, b :: ss => a = b && startsList ps ss

/-- Python `p in s` substring test. -/
def containsSub (p : List Char) : List Char → Bool
  | [] => startsList p []
  | b :: ss => startsList p (b :: ss) || containsSub p ss

/-- `text.split("\n")`: split a character list at newline characters;
the empty text yields one empty line, as in Python. -/
def splitLines : List Char → List (List Char)
  | [] => [[]]
  | c :: cs =>
    if c = '\n' then [] :: splitLines cs
    else
      match splitLines cs with
      | [] => [[c]]
      | l :: ls => (c :: l) :: ls

/-! ### Numeric Token Parser (`extract_numbers`, src/main.py lines 61-71)

The Python code runs `re.findall(r"\(?-?\d[\d,\.]*\)?", line)`.  The pattern
is deterministic: at a position it optionally takes `(`, optionally `-`,
requires a digit, greedily takes digit/comma/period characters, then takes a
closing `)` if present; `re.findall` scans left to right, skipping one
character on failure and resuming after each match. -/

/-- A character matched by the class `[\d,\.]`. -/
def isNumChar (c : Char) : Bool := c.isDigit || c = ',' || c = '.'

/-- Greedily consume `[\d,\.]*`, returning (consumed, rest). -/
def takeNumChars : List Char → List Char × List Char
  | [] => ([], [])
  | c :: cs =>
    if isNumChar c then
      let p := takeNumChars cs
      (c :: p.1, p.2)
    else ([], c :: cs)

/-- After the mandatory digit `d`, consume `[\d,\.]*\)?`;
returns (token suffix from `d` on, rest of input). -/
def matchBody (d : Char) (cs : List Char) : List Char × List Char :=
  let p := takeNumChars cs
  match p.2 with
  | ')' :: r => (d :: p.1 ++ [')'], r)
  | r => (d :: p.1, r)

/-- Attempt to match `\(?-?\d[\d,\.]*\)?` at the head of `s`;
on success returns (matched token, rest).  Backtracking over the two
optional prefixes is resolved exactly as Python's regex engine does. -/
def matchToken (s : List Char) : Option (List Char × List Char) :=
  match s with
  | [] => none
  | a :: t =>
    if a = '(' then
      match t with
      | [] => none
      | b :: u =>
        if b = '-' then
          match u with
          | [] => none
          | c :: v =>
            if c.isDigit then
              some ('(' :: '-' :: (matchBody c v).1, (matchBody c v).2)
            else none
        else if b.isDigit then
          some ('(' :: (matchBody b u).1, (matchBody b u).2)
        else none
    else if a = '-' then
      match t with
      | [] => none
      | b :: u =>
        if b.isDigit then some ('-' :: (matchBody b u).1, (matchBody b u).2)
        else none
    else if a.isDigit then some ((matchBody a t).1, (matchBody a t).2)
    else none

/-- `re.findall` scan, fuelled by the input length (every successful match
consumes at least one character, so `s.length` fuel suffices). -/
def findNumsAux : Nat → List Char → List (List Char)
  | 0, _ => []
  | _ + 1, [] => []
  | n + 1, c :: cs =>
    match matchToken (c :: cs) with
    | some (t, r) => t :: findNumsAux n r
    | none => findNumsAux n cs

/-- All matches of `\(?-?\d[\d,\.]*\)?` in `s`, left to right. -/
def findNums (s : List Char) : List (List Char) := findNumsAux s.length s

/-- `num.replace(",", "")`. -/
def stripCommas (t : List Char) : List Char := t.filter (fun c => c ≠ ',')

/-- Per-token cleanup from `extract_numbers`: strip commas; if both `(` and
`)` are present, drop them and prepend a minus sign. -/
def cleanNum (t : List Char) : List Char :=
  let u := stripCommas t
  if u.contains '(' && u.contains ')' then
    '-' :: u.filter (fun c => c ≠ '(' && c ≠ ')')
  else u

/-- `extract_numbers(line)` from src/main.py. -/
def extract_numbers (line : String) : List String :=
  (findNums line.toList).map (fun t => String.mk (cleanNum t))

/-! ### Label Normalizer (`normalize_label`, src/main.py lines 77-95) -/

/-- The lowercased character list of a line, Python's `line.lower()`. -/
def lowerChars (line : String) : List Char := line.toList.map Char.toLower

/-- `normalize_label(line)` from src/main.py: lowercase, then an ordered
chain of substring tests. -/
def normalize_label (line : String) : String :=
  if containsSub "total net sales".toList (lowerChars line)
      || containsSub "net sales".toList (lowerChars line) then
    "Revenue"
  else if containsSub "cost of sales".toList (lowerChars line) then
    "Cost of Revenue"
  else if containsSub "gross margin".toList (lowerChars line)
      || containsSub "gross profit".toList (lowerChars line) then
    "Gross Profit"
  else if containsSub "operating income".toList (lowerChars line) then
    "Operating Income"
  else if containsSub "operating expenses".toList (lowerChars line) then
    "Operating Expenses"
  else if containsSub "net income".toList (lowerChars line)
      || containsSub "net profit".toList (lowerChars line)
      || containsSub "net earnings".toList (lowerChars line) then
    "Net Income"
  else if containsSub "earnings per share".toList (lowerChars line)
      || containsSub "eps".toList (lowerChars line) then
    "EPS"
  else "UNKNOWN"

/-- The spec's ordered rule table (§4.4): phrase sets in priority order. -/
def labelRules : List (List String × String) :=
  [ (["total net sales", "net sales"], "Revenue"),
    (["cost of sales"], "Cost of Revenue"),
    (["gross margin", "gross profit"], "Gross Profit"),
    (["operating income"], "Operating Income"),
    (["operating expenses"], "Operating Expenses"),
    (["net income", "net profit", "net earnings"], "Net Income"),
    (["earnings per share", "eps"], "EPS") ]

/-- First rule whose phrase set matches the lowercased line. -/
def firstMatch (lower : List Char) : List (List String × String) → String
  | [] => "UNKNOWN"
  | (phrases, lab) :: rest =>
    if phrases.any (fun p => containsSub p.toList lower) then lab
    else firstMatch lower rest

/-- The Label Normalizer as the spec words it: earliest-listed match over
the ordered rule table, `UNKNOWN` when no rule fires. -/
def normalize_label_spec (line : String) : String :=
  firstMatch (lowerChars line) labelRules

/-! ### Candidate Line Filter (`get_income_statement_lines`, src/main.py lines 37-55) -/

/-- The `financial_terms` keyword list from src/main.py. -/
def financial_terms : List String :=
  ["revenue", "sales", "cost", "gross",
   "operating income", "operating expenses",
   "net income", "earnings per share", "eps"]

/-- `get_income_statement_lines(text)` from src/main.py: split on newlines,
strip each line, keep it when it has a digit and a financial keyword
(case-insensitive). -/
def get_income_statement_lines (text : String) : List String :=
  (splitLines text.toList).filterMap (fun line =>
    if (trimChars line).any Char.isDigit
        && financial_terms.any
          (fun t => containsSub t.toList ((trimChars line).map Char.toLower)) then
      some (String.mk (trimChars line))
    else none)

/-- The keyword set exactly as the spec lists it (§4.2). -/
def spec_keywords : List String :=
  ["revenue", "sales", "cost", "gross",
   "operating income", "operating expenses",
   "net income", "earnings per share", "eps"]

/-- The Candidate Line Filter as the spec words it: the ordered subsequence
of trimmed lines containing at least one digit whose lowercased form
contains at least one keyword. -/
def candidate_filter_spec (text : String) : List String :=
  ((splitLines text.toList).map (fun l => String.mk (trimChars l))).filter
    (fun s => s.toList.any Char.isDigit
      && spec_keywords.any (fun t => containsSub t.toList (s.toList.map Char.toLower)))

/-! ### Extraction Orchestrator (`extract_financials`, src/main.py lines 101-145) -/

/-- One output record: raw line, canonical label, numeric tokens in order. -/
structure Row where
  rawLine : String
  label : String
  values : List String
deriving Repr, DecidableEq

/-- `", ".join(numbers)` — how `Values Found` is rendered in the CSV. -/
def joinComma : List String → String
  | [] => ""
  | [s] => s
  | s :: rest => s ++ ", " ++ joinComma rest

/-- The per-line row builder of the orchestrator loop: keep the line only
when its label is not `UNKNOWN` and it yielded at least one number. -/
def rowOfLine (line : String) : Option Row :=
  if normalize_label line ≠ "UNKNOWN" ∧ extract_numbers line ≠ [] then
    some ⟨line, normalize_label line, extract_numbers line⟩
  else none

/-- The orchestrator loop over candidate lines (src/main.py lines 113-124). -/
def extract_rows (text : String) : List Row :=
  (get_income_statement_lines text).filterMap rowOfLine

/-- The informational fallback row (src/main.py lines 130-135). -/
def infoRow : Row :=
  ⟨"No income statement data detected in first 40 pages.", "INFO", []⟩

/-- Full result: the extracted rows, or the single INFO row when empty. -/
def extract_result (text : String) : List Row :=
  let data := extract_rows text
  if data = [] then [infoRow] else data

/-! ### CSV rendering (`df.to_csv(stream, index=False)`)

pandas uses minimal quoting: a field is wrapped in double quotes (with inner
quotes doubled) only when it contains a comma, quote, or line break. -/

/-- Minimal CSV quoting of one field. -/
def csvField (s : String) : String :=
  if s.toList.any (fun c => c = ',' || c = '"' || c = '\n' || c = '\r') then
    "\"" ++ String.mk (s.toList.foldr
      (fun c acc => if c = '"' then '"' :: '"' :: acc else c :: acc) []) ++ "\""
  else s

/-- One CSV data row: `Raw Line`, `Standard Label`, `Values Found`. -/
def csvRow (r : Row) : String :=
  csvField r.rawLine ++ "," ++ csvField r.label ++ ","
    ++ csvField (joinComma r.values) ++ "\n"

/-- The CSV text: header then one row per record. -/
def to_csv (rows : List Row) : String :=
  "Raw Line,Standard Label,Values Found\n" ++ String.join (rows.map csvRow)

/-! ### Page Text Extractor (`extract_text_from_pdf`, src/main.py lines 23-31)

The per-page text extraction is done by the external pdfplumber library;
a parsed document is modelled as the list of its pages' extracted texts,
with `""` standing for a page yielding no extractable text (both `None` and
the empty string are falsy under the source's `if page_text:` test). -/

/-- `extract_text_from_pdf(file_bytes)` on an already-parsed document:
concatenate the first 40 pages' texts, each followed by a newline, skipping
pages with no text. -/
def extract_text_from_pdf (pages : List String) : String :=
  (pages.take 40).foldl (fun acc p => if p ≠ "" then acc ++ p ++ "\n" else acc) ""

/-- The Page Text Extractor as the spec words it: the concatenation, in
page order, of each non-empty page text followed by a newline; pages
yielding no text contribute nothing. -/
def concat_pages_spec : List String → String
  | [] => ""
  | p :: ps => if p = "" then concat_pages_spec ps else p ++ "\n" ++ concat_pages_spec ps

/-- The whole text-to-CSV pipeline on a parsed document. -/
def pdf_output (pages : List String) : String :=
  to_csv (extract_result (extract_text_from_pdf pages))

/-- The error taxonomy of the spec (§7): only malformed input. -/
inductive DecodeError
  | malformedInput
deriving Repr, DecidableEq

/-- Modelled from the spec: PDF byte decoding (pdfplumber, external to
src/) either fails with `MalformedInputError` on bytes that are not a valid
document, or yields the document's per-page texts.  The decode step is kept
abstract as a parameter; everything downstream is the code's own logic. -/
def run_pipeline (decode : List Nat → Option (List String)) (bytes : List Nat) :
    Except DecodeError String :=
  match decode bytes with
  | none => Except.error DecodeError.malformedInput
  | some pages => Except.ok (pdf_output pages)

end FinExtract

open FinExtract

/-! ### Helper lemmas -/

/-- On character lists with no digit at all, the token pattern cannot
match: every success path of `matchToken` guards on a digit. -/
lemma matchToken_eq_none : ∀ {s : List Char}, (∀ c ∈ s, c.isDigit = false) →
    matchToken s = none
  | [], _ => rfl
  | a :: t, h => by
    have ha : a.isDigit = false := h a (by simp)
    match t with
    | [] =>
      simp [matchToken, ha]
    | b :: u =>
      have hb : b.isDigit = false := h b (by simp)
      match u with
      | [] => simp [matchToken, ha, hb]
      | c :: v =>
        have hc : c.isDigit = false := h c (by simp)
        simp [matchToken, ha, hb, hc]

/-- The findall scan over a digit-free list finds nothing. -/
lemma findNumsAux_eq_nil : ∀ (n : Nat) (s : List Char),
    (∀ c ∈ s, c.isDigit = false) → findNumsAux n s = []
  | 0, _, _ => rfl
  | _ + 1, [], _ => rfl
  | n + 1, c :: cs, h => by
    rw [findNumsAux, matchToken_eq_none h]
    exact findNumsAux_eq_nil n cs (fun x hx => h x (List.mem_cons_of_mem c hx))

/-- A digit-free line yields no numeric tokens. -/
lemma extract_numbers_eq_nil {line : String}
    (h : ∀ c ∈ line.toList, c.isDigit = false) : extract_numbers line = [] := by
  unfold extract_numbers findNums
  rw [findNumsAux_eq_nil _ _ h]
  rfl

/-- A `filterMap` that keeps `g a` under a test is the `filter` of the
mapped list: the shape shared by the Candidate Line Filter and its spec. -/
lemma filterMap_if_eq_filter_map {α β : Type} [DecidableEq β] (g : α → β) (p : β → Bool) :
    ∀ ls : List α,
      ls.filterMap (fun a => if p (g a) then some (g a) else none)
        = (ls.map g).filter p
  | [] => rfl
  | a :: ls => by
    rw [List.map_cons, List.filter_cons, List.filterMap_cons]
    by_cases hp : p (g a) = true
    · rw [if_pos hp, if_pos hp, filterMap_if_eq_filter_map g p ls]
    · rw [if_neg hp, if_neg hp, filterMap_if_eq_filter_map g p ls]

/-- A `filterMap` whose hits are always the mapped element is a sublist of
the mapped list. -/
lemma filterMap_sublist_map {α β : Type} (f : α → Option β) (g : α → β)
    (h : ∀ a b, f a = some b → b = g a) :
    ∀ ls : List α, List.Sublist (ls.filterMap f) (ls.map g)
  | [] => List.Sublist.slnil
  | a :: ls => by
    rw [List.map_cons, List.filterMap_cons]
    cases hfa : f a with
    | none => exact List.Sublist.cons (g a) (filterMap_sublist_map f g h ls)
    | some b =>
      rw [h a b hfa]
      exact List.Sublist.cons₂ (g a) (filterMap_sublist_map f g h ls)

/-- String append is associative (componentwise list append). -/
lemma str_append_assoc (a b c : String) : a ++ b ++ c = a ++ (b ++ c) := by
  apply String.ext
  simp [String.data_append, List.append_assoc]

/-- The page-concatenation loop with an accumulator, in closed form. -/
lemma foldl_pages : ∀ (ps : List String) (acc : String),
    ps.foldl (fun a p => if p ≠ "" then a ++ p ++ "\n" else a) acc
      = acc ++ concat_pages_spec ps
  | [], acc => by
    rw [List.foldl_nil, concat_pages_spec]
    apply String.ext
    simp [String.data_append]
  | p :: ps, acc => by
    rw [List.foldl_cons, concat_pages_spec]
    by_cases hp : p = ""
    · rw [if_neg (by simp [hp]), if_pos hp, foldl_pages ps acc]
    · rw [if_pos (by simp [hp]), if_neg hp, foldl_pages ps (acc ++ p ++ "\n"),
        str_append_assoc, str_append_assoc, str_append_assoc]

/-- Appending to the empty string is the identity. -/
lemma str_empty_append : ∀ s : String, "" ++ s = s
  | ⟨_⟩ => rfl

/-! ### Claim theorems -/

/-- C1: the Label Normalizer tests the seven phrase sets in the fixed
priority order and returns the earliest-listed match (it agrees with the
spec's ordered rule table everywhere); any line whose lowercased form
contains "net sales" — in particular one containing both "net sales" and
"net income" — normalizes to Revenue, and the concrete line
"Net sales and net income both rose" normalizes to Revenue. -/
theorem claim_C1 :
    (∀ line : String, normalize_label line = normalize_label_spec line)
    ∧ (∀ line : String,
        containsSub "net sales".toList (lowerChars line) = true →
        normalize_label line = "Revenue")
    ∧ normalize_label "Net sales and net income both rose" = "Revenue" := by
  refine ⟨?_, ?_, by decide⟩
  · intro line
    simp only [normalize_label, normalize_label_spec, labelRules, firstMatch,
      List.any_cons, List.any_nil, Bool.or_false, Bool.or_assoc]
  · intro line h
    unfold normalize_label
    rw [if_pos]
    rw [h, Bool.or_true]

/-- Witness for C1 at a concrete line containing "net sales". -/
theorem claim_C1_witness :
    containsSub "net sales".toList (lowerChars "Net sales rose") = true
    ∧ normalize_label "Net sales rose" = "Revenue" :=
  ⟨by decide, claim_C1.2.1 "Net sales rose" (by decide)⟩

/-- C2: the Numeric Token Parser yields the empty sequence (not an error)
on any digit-free line; thousands-separator commas are stripped, so
"Total net sales 1,200 900" yields ["1200", "900"] in order of appearance;
a fully parenthesized token is negated, so "Cost of sales (1,234)"
yields ["-1234"]. -/
theorem claim_C2 :
    (∀ line : String, (∀ c ∈ line.toList, c.isDigit = false) →
      extract_numbers line = [])
    ∧ extract_numbers "Total net sales 1,200 900" = ["1200", "900"]
    ∧ extract_numbers "Cost of sales (1,234)" = ["-1234"] := by
  refine ⟨?_, by decide, by decide⟩
  intro line h
  exact extract_numbers_eq_nil h

/-- Witness for C2 at a concrete digit-free line. -/
theorem claim_C2_witness :
    (∀ c ∈ "no numbers here".toList, c.isDigit = false)
    ∧ extract_numbers "no numbers here" = [] :=
  ⟨by decide, claim_C2.1 "no numbers here" (by decide)⟩

/-- C3: the Candidate Line Filter returns exactly the ordered subsequence
of trimmed lines that contain a digit and a keyword from the fixed set
(the code equals the spec's filter of the trimmed lines), and every
returned line contains at least one digit character. -/
theorem claim_C3 :
    (∀ text : String, get_income_statement_lines text = candidate_filter_spec text)
    ∧ (∀ (text : String) (s : String), s ∈ get_income_statement_lines text →
        s.toList.any Char.isDigit = true) := by
  constructor
  · intro text
    unfold get_income_statement_lines candidate_filter_spec
    rw [← filterMap_if_eq_filter_map (fun l : List Char => String.mk (trimChars l))
      (fun s => s.toList.any Char.isDigit
        && spec_keywords.any (fun t => containsSub t.toList (s.toList.map Char.toLower)))
      (splitLines text.toList)]
    rfl
  · intro text s hs
    unfold get_income_statement_lines at hs
    obtain ⟨l, _, heq⟩ := List.mem_filterMap.mp hs
    by_cases hc : ((trimChars l).any Char.isDigit
        && financial_terms.any
          (fun t => containsSub t.toList ((trimChars l).map Char.toLower))) = true
    · rw [if_pos hc] at heq
      obtain rfl : String.mk (trimChars l) = s := Option.some.inj heq
      rw [Bool.and_eq_true] at hc
      exact hc.1
    · rw [if_neg hc] at heq
      cases heq

/-- Witness for C3 at a concrete two-line document. -/
theorem claim_C3_witness :
    "Net sales 7" ∈ get_income_statement_lines "Net sales 7\nno digits line"
    ∧ "Net sales 7".toList.any Char.isDigit = true :=
  ⟨by decide, claim_C3.2 "Net sales 7\nno digits line" "Net sales 7" (by decide)⟩

/-- C5: every row emitted by the orchestrator loop (outside the
informational fallback) has a label distinct from the UNKNOWN sentinel and
a non-empty sequence of values; lines failing either test are skipped. -/
theorem claim_C5 :
    ∀ (text : String) (r : Row), r ∈ extract_rows text →
      r.label ≠ "UNKNOWN" ∧ r.values ≠ [] := by
  intro text r hr
  unfold extract_rows at hr
  obtain ⟨line, _, heq⟩ := List.mem_filterMap.mp hr
  unfold rowOfLine at heq
  by_cases hc : normalize_label line ≠ "UNKNOWN" ∧ extract_numbers line ≠ []
  · rw [if_pos hc] at heq
    obtain rfl : (⟨line, normalize_label line, extract_numbers line⟩ : Row) = r :=
      Option.some.inj heq
    exact hc
  · rw [if_neg hc] at heq
    cases heq

/-- Witness for C5 at a concrete document and its emitted row. -/
theorem claim_C5_witness :
    (⟨"Net sales 100", "Revenue", ["100"]⟩ : Row) ∈ extract_rows "Net sales 100"
    ∧ ((⟨"Net sales 100", "Revenue", ["100"]⟩ : Row).label ≠ "UNKNOWN"
       ∧ (⟨"Net sales 100", "Revenue", ["100"]⟩ : Row).values ≠ []) :=
  ⟨by decide,
   claim_C5 "Net sales 100" ⟨"Net sales 100", "Revenue", ["100"]⟩ (by decide)⟩

/-- C4: when decoding fails the pipeline fails with `MalformedInputError`,
and decoding is the only step that can fail: whenever decoding succeeds the
rest of the pipeline always produces a result. -/
theorem claim_C4 :
    ∀ (decode : List Nat → Option (List String)) (bytes : List Nat),
      (decode bytes = none →
        run_pipeline decode bytes = Except.error DecodeError.malformedInput)
      ∧ (∀ pages : List String, decode bytes = some pages →
        run_pipeline decode bytes = Except.ok (pdf_output pages)) := by
  intro decode bytes
  constructor
  · intro h
    unfold run_pipeline
    rw [h]
  · intro pages h
    unfold run_pipeline
    rw [h]

/-- Witness for C4 at a concrete failing decoder and a succeeding one. -/
theorem claim_C4_witness :
    run_pipeline (fun _ => none) [0, 1] = Except.error DecodeError.malformedInput
    ∧ run_pipeline (fun _ => some ["Net sales 9"]) [0, 1]
        = Except.ok (pdf_output ["Net sales 9"]) :=
  ⟨(claim_C4 (fun _ => none) [0, 1]).1 rfl,
   (claim_C4 (fun _ => some ["Net sales 9"]) [0, 1]).2 ["Net sales 9"] rfl⟩

/-- C6: when no candidate line yields a row, the result is exactly the one
informational row and the CSV has exactly that one data row with label
INFO — a successful result, not an error. -/
theorem claim_C6 :
    ∀ text : String, extract_rows text = [] →
      extract_result text = [infoRow]
      ∧ to_csv (extract_result text)
        = "Raw Line,Standard Label,Values Found\nNo income statement data detected in first 40 pages.,INFO,\n" := by
  intro text h
  have h1 : extract_result text = [infoRow] := by
    unfold extract_result
    rw [if_pos h]
  refine ⟨h1, ?_⟩
  rw [h1]
  rfl

/-- Witness for C6 at the empty document. -/
theorem claim_C6_witness :
    extract_rows "" = []
    ∧ extract_result "" = [infoRow]
    ∧ to_csv (extract_result "")
        = "Raw Line,Standard Label,Values Found\nNo income statement data detected in first 40 pages.,INFO,\n" :=
  ⟨by decide, (claim_C6 "" (by decide)).1, (claim_C6 "" (by decide)).2⟩

/-- C7: output rows follow the order of their source lines — the sequence
of raw lines of the emitted rows is a subsequence (in order) of the
document's trimmed lines; duplicate qualifying lines each produce a row;
values keep the left-to-right order of the numbers in the line. -/
theorem claim_C7 :
    (∀ text : String,
      List.Sublist ((extract_rows text).map Row.rawLine)
        ((splitLines text.toList).map (fun l => String.mk (trimChars l))))
    ∧ extract_rows "Net sales 5\nNet sales 5"
        = [⟨"Net sales 5", "Revenue", ["5"]⟩, ⟨"Net sales 5", "Revenue", ["5"]⟩]
    ∧ extract_numbers "Net sales 7 8 9" = ["7", "8", "9"] := by
  refine ⟨?_, by decide, by decide⟩
  intro text
  have h1 : List.Sublist ((extract_rows text).map Row.rawLine)
      (get_income_statement_lines text) := by
    unfold extract_rows
    rw [List.map_filterMap]
    have hid : ∀ (a b : String), (rowOfLine a).map Row.rawLine = some b → b = id a := by
      intro a b hab
      unfold rowOfLine at hab
      by_cases hc : normalize_label a ≠ "UNKNOWN" ∧ extract_numbers a ≠ []
      · rw [if_pos hc] at hab
        exact (Option.some.inj hab).symm
      · rw [if_neg hc] at hab
        cases hab
    simpa using filterMap_sublist_map _ _ hid (get_income_statement_lines text)
  have h2 : List.Sublist (get_income_statement_lines text)
      ((splitLines text.toList).map (fun l => String.mk (trimChars l))) := by
    unfold get_income_statement_lines
    apply filterMap_sublist_map
    intro a b hab
    by_cases hc : ((trimChars a).any Char.isDigit
        && financial_terms.any
          (fun t => containsSub t.toList ((trimChars a).map Char.toLower))) = true
    · rw [if_pos hc] at hab
      exact (Option.some.inj hab).symm
    · rw [if_neg hc] at hab
      cases hab
  exact h1.trans h2

/-- C8: the Page Text Extractor uses at most the first 40 pages, and its
result is the in-order concatenation of each non-empty page text followed
by a newline; two documents agreeing on their first 40 pages produce the
same final CSV, so content unique to later pages never reaches the
output. -/
theorem claim_C8 :
    (∀ pages : List String,
      extract_text_from_pdf pages = concat_pages_spec (pages.take 40))
    ∧ ∀ pages qs : List String, pages.take 40 = qs.take 40 →
        pdf_output pages = pdf_output qs := by
  have key : ∀ pages : List String,
      extract_text_from_pdf pages = concat_pages_spec (pages.take 40) := by
    intro pages
    unfold extract_text_from_pdf
    rw [foldl_pages, str_empty_append]
  refine ⟨key, ?_⟩
  intro pages qs h
  unfold pdf_output extract_text_from_pdf
  rw [foldl_pages, foldl_pages, h]

/-- Witness for C8: a 41-page document, with two different last pages. -/
theorem claim_C8_witness :
    (List.replicate 40 "x" ++ ["y"]).take 40 = (List.replicate 40 "x" ++ ["z"]).take 40
    ∧ pdf_output (List.replicate 40 "x" ++ ["y"])
        = pdf_output (List.replicate 40 "x" ++ ["z"]) :=
  ⟨by decide, claim_C8.2 (List.replicate 40 "x" ++ ["y"])
    (List.replicate 40 "x" ++ ["z"]) (by decide)⟩

/-- C9: the pipeline is deterministic and stateless — equal input bytes
give equal results under any fixed decoder, and equal extracted texts give
byte-identical CSV output. -/
theorem claim_C9 :
    (∀ (decode : List Nat → Option (List String)) (b₁ b₂ : List Nat),
      b₁ = b₂ → run_pipeline decode b₁ = run_pipeline decode b₂)
    ∧ ∀ t₁ t₂ : String, t₁ = t₂ →
        to_csv (extract_result t₁) = to_csv (extract_result t₂) := by
  constructor
  · intro decode b₁ b₂ h
    rw [h]
  · intro t₁ t₂ h
    rw [h]

/-- Witness for C9 at concrete equal inputs. -/
theorem claim_C9_witness :
    run_pipeline (fun _ => some ["Net sales 1"]) [7]
      = run_pipeline (fun _ => some ["Net sales 1"]) [7]
    ∧ to_csv (extract_result "Net sales 1") = to_csv (extract_result "Net sales 1") :=
  ⟨claim_C9.1 (fun _ => some ["Net sales 1"]) [7] [7] rfl,
   claim_C9.2 "Net sales 1" "Net sales 1" rfl⟩

/-- C10: a number preceded by an unmatched opening parenthesis keeps the
parenthesis in its token and is not negated: the line "Net sales (1,23"
flows through the whole pipeline and emits the value "(123", which
contains "(" and no minus sign — not a signed decimal numeral. -/
theorem claim_C10 :
    extract_result "Net sales (1,23"
      = [⟨"Net sales (1,23", "Revenue", ["(123"]⟩]
    ∧ "(123".toList.contains '(' = true
    ∧ "(123".toList.contains '-' = false :=
  ⟨by decide, by decide, by decide⟩
